import Mathlib

/-!
Shallow embedding of the Pac-Man grid transition system
(`r01transitionsystems/pacman.py`).

Coordinates are Python integers, embedded as `Int`.  Directions are the
free-form strings `"N"`, `"S"`, `"E"`, `"W"` exactly as in the source.
Python index errors are modelled by an `Option`-valued variant of the
occupancy query (`occupiedE`); the `Bool`-valued `occupied` used by the
transition function agrees with it on every grid whose stored bounds match
a rectangular row list (proved below as `occupied_occupiedE_agree`).
-/

namespace PacMan

/-- The grid record built by `PacManGrid.__init__`: the raw row list plus
the cached bounds `xmax`, `ymax`.  The constructor computes
`xmax = len(grid[0]) - 1` and `ymax = len(grid) - 1` with no validation;
`mkGrid` below models the constructor including its failure on `[]`. -/
structure PacManGrid where
  grid : List String
  xmax : Int
  ymax : Int
deriving Repr, DecidableEq

/-- Constructor `PacManGrid(grid)`: `len(grid[0])` raises `IndexError` on an empty
list (modelled as `none`); otherwise the fields are stored unchecked. -/
def mkGrid (rows : List String) : Option PacManGrid :=
  match rows with
  | [] => none
  | r :: _ => some ⟨rows, (r.length : Int) - 1, (rows.length : Int) - 1⟩

/-- Occupancy test `PacManGrid.occupied(x, y)`: outside the cached bounds every cell is a
wall; inside, the character of row `ymax - y`, column `x`, is compared with
the wall marker.  The in-range accesses `grid[ymax - y]` and `s[x]` are
total here via `getD`; `occupiedE` models the index errors Python would
raise when an access is out of range. -/
def PacManGrid.occupied (g : PacManGrid) (x y : Int) : Bool :=
  if x < 0 || y < 0 || x > g.xmax || y > g.ymax then
    true
  else
    let s := g.grid.getD (g.ymax - y).toNat ""
    s.data.getD x.toNat 'X' == 'X'

/-- Variant of `PacManGrid.occupied(x, y)` with Python index errors made explicit:
`none` exactly when `grid[self.ymax - y]` or `s[x]` would raise
`IndexError` (index not in range; the guard keeps both indices
non-negative, so Python's negative-index wrap-around cannot occur). -/
def PacManGrid.occupiedE (g : PacManGrid) (x y : Int) : Option Bool :=
  if x < 0 || y < 0 || x > g.xmax || y > g.ymax then
    some true
  else
    match g.grid[(g.ymax - y).toNat]? with
    | none => none
    | some s =>
      match s.data[x.toNat]? with
      | none => none
      | some c => some (c == 'X')

/-- A Pac-Man state: position, facing direction and the shared grid. -/
structure PacManState where
  x : Int
  y : Int
  d : String
  grid : PacManGrid
deriving Repr, DecidableEq

/-- Hash method `PacManState.__hash__`: `self.x + (self.grid.xmax + 1) * self.y`. -/
def PacManState.hash (s : PacManState) : Int :=
  s.x + (s.grid.xmax + 1) * s.y

/-- Equality method `PacManState.__eq__`: component-wise on `x`, `y`, `d`; the grid does
not participate. -/
def PacManState.eq (s t : PacManState) : Bool :=
  s.x == t.x && s.y == t.y && s.d == t.d

/-- Move helper `PacManState.moveNorth(x, y)`. -/
def PacManState.moveNorth (self : PacManState) (x y : Int) : Int × PacManState :=
  let state : PacManState := ⟨x, y + 1, "N", self.grid⟩
  (state.hash, state)

/-- Move helper `PacManState.moveSouth(x, y)`. -/
def PacManState.moveSouth (self : PacManState) (x y : Int) : Int × PacManState :=
  let state : PacManState := ⟨x, y - 1, "S", self.grid⟩
  (state.hash, state)

/-- Move helper `PacManState.moveEast(x, y)`: note the source stores direction `"W"`
on an eastward step. -/
def PacManState.moveEast (self : PacManState) (x y : Int) : Int × PacManState :=
  let state : PacManState := ⟨x + 1, y, "W", self.grid⟩
  (state.hash, state)

/-- Move helper `PacManState.moveWest(x, y)`: note the source stores direction `"E"`
on a westward step. -/
def PacManState.moveWest (self : PacManState) (x y : Int) : Int × PacManState :=
  let state : PacManState := ⟨x - 1, y, "E", self.grid⟩
  (state.hash, state)

/-- Dead-end helper `PacManState.deadend(x, y)`.  The occupancy tests pass their
arguments in the order written in the source, e.g. `occupied(y + 1, x)`
for direction `"N"`; `none` models both the `return False` branch and the
implicit `return None` when the guard fails. -/
def PacManState.deadend (self : PacManState) (x y : Int) : Option (Int × PacManState) :=
  if self.d == "N" then
    if self.grid.occupied (y + 1) x && self.grid.occupied y (x + 1)
        && self.grid.occupied y (x - 1) then
      let state : PacManState := ⟨x, y - 1, "S", self.grid⟩
      some (state.hash, state)
    else none
  else if self.d == "S" then
    if self.grid.occupied (y - 1) x && self.grid.occupied y (x + 1)
        && self.grid.occupied y (x - 1) then
      let state : PacManState := ⟨x, y + 1, "N", self.grid⟩
      some (state.hash, state)
    else none
  else if self.d == "E" then
    if self.grid.occupied y (x + 1) && self.grid.occupied (y + 1) x
        && self.grid.occupied (y - 1) x then
      let state : PacManState := ⟨x - 1, y, "W", self.grid⟩
      some (state.hash, state)
    else none
  else if self.d == "W" then
    if self.grid.occupied y (x - 1) && self.grid.occupied (y + 1) x
        && self.grid.occupied (y - 1) x then
      let state : PacManState := ⟨x + 1, y, "E", self.grid⟩
      some (state.hash, state)
    else none
  else none

/-- The guarded append used before every insertion in `successors`:
`if not any(j == p[1] for (i, j) in successor_states): append(p)`. -/
def addIfNew (acc : List (Int × PacManState)) (p : Int × PacManState) :
    List (Int × PacManState) :=
  if acc.any (fun q => PacManState.eq q.2 p.2) then acc else acc ++ [p]

/-- Append a dead-end result when one was produced:
`if dead and not any(...): append(dead)`. -/
def addDead (acc : List (Int × PacManState)) (dead : Option (Int × PacManState)) :
    List (Int × PacManState) :=
  match dead with
  | some p => addIfNew acc p
  | none => acc

/-- The body of the two nested loops of `PacManState.successors` for a
single grid cell `(x, y)`: the four direction blocks in source order
(the unused local `ind = [0, 0, 0, 0]` of the source binds nothing and is
omitted). -/
def PacManState.processCell (self : PacManState) (x y : Int)
    (acc0 : List (Int × PacManState)) : List (Int × PacManState) :=
  let grid := self.grid
  let acc1 :=
    if !grid.occupied x (y + 1) then
      let n := self.moveNorth x y
      let a := addIfNew acc0 n
      let a :=
        if !grid.occupied x (y - 1) then addIfNew a (self.moveSouth x y) else a
      addDead a (n.2.deadend x y)
    else acc0
  let acc2 :=
    if !grid.occupied x (y - 1) then
      let s := self.moveSouth x y
      let a := addIfNew acc1 s
      let a :=
        if !grid.occupied x (y + 1) then addIfNew a (self.moveNorth x y) else a
      addDead a (s.2.deadend x y)
    else acc1
  let acc3 :=
    if !grid.occupied (x + 1) y then
      let e := self.moveEast x y
      let a := addIfNew acc2 e
      let a :=
        if !grid.occupied (x - 1) y then addIfNew a (self.moveWest x y) else a
      addDead a (e.2.deadend x y)
    else acc2
  if !grid.occupied (x - 1) y then
    let w := self.moveWest x y
    let a := addIfNew acc3 w
    let a :=
      if !grid.occupied (x + 1) y then addIfNew a (self.moveEast x y) else a
    addDead a (w.2.deadend x y)
  else acc3

/-- Transition function `PacManState.successors()`: the source iterates over every cell of the
grid (`for y in range(len(grid.grid)): for x in range(len(grid.grid[0]))`),
accumulating guarded appends.  `len(grid.grid[0])` is modelled with a
`headD` default that is only reached on the empty grid, on which the
Python constructor already fails. -/
def PacManState.successors (self : PacManState) : List (Int × PacManState) :=
  let grid := self.grid
  (List.range grid.grid.length).foldl
    (fun acc y =>
      (List.range (grid.grid.headD "").length).foldl
        (fun acc x => self.processCell (x : Int) (y : Int) acc) acc)
    []

/-! ### Spec-side formulations and concrete grids -/

/-- Spec-side width of a row description: the length of its first row. -/
def gridWidth (rows : List String) : Nat := (rows.headD "").length

/-- Spec-side height of a row description: the number of rows. -/
def gridHeight (rows : List String) : Nat := rows.length

/-- Spec-side well-formedness: a non-empty collection of equal-length rows. -/
def Rectangular (rows : List String) : Prop :=
  rows ≠ [] ∧ ∀ r ∈ rows, r.length = gridWidth rows

/-- Spec-side wall test: the character at input row `height - 1 - y`,
column `x`, is the wall marker.  Only consulted at in-bounds coordinates,
where its defaults are never reached. -/
def specWallAt (rows : List String) (x y : Int) : Prop :=
  (rows.getD (gridHeight rows - 1 - y.toNat) "").data.getD x.toNat '.' = 'X'

/-- The 1-by-1 grid of the spec scenario, exactly as the constructor
builds it from the row list with one open cell. -/
def grid1x1 : PacManGrid := ⟨["."], 0, 0⟩

/-- A 1-by-3 grid of open cells, exactly as the constructor builds it. -/
def grid1x3 : PacManGrid := ⟨["..."], 2, 0⟩

/-- On a grid whose bounds match a rectangular row list, the total
occupancy test agrees with the error-aware one: no access can fail. -/
theorem occupied_occupiedE_agree (rows : List String) (g : PacManGrid)
    (hg : mkGrid rows = some g) (hrect : Rectangular rows) (x y : Int) :
    g.occupiedE x y = some (g.occupied x y) := by
  obtain ⟨hne, hlen⟩ := hrect
  cases rows with
  | nil => cases hne rfl
  | cons r rest =>
    simp only [mkGrid, Option.some.injEq] at hg
    subst hg
    unfold PacManGrid.occupiedE PacManGrid.occupied
    dsimp only
    split
    · rfl
    · rename_i h
      have h' := h
      simp only [Bool.or_eq_true, decide_eq_true_eq, not_or, not_lt] at h'
      obtain ⟨⟨⟨hx0, hy0⟩, hxm⟩, hym⟩ := h'
      clear h
      have hylt : (((r :: rest).length : Int) - 1 - y).toNat < (r :: rest).length := by
        omega
      have hxlt : x.toNat <
          ((r :: rest)[(((r :: rest).length : Int) - 1 - y).toNat]).data.length := by
        have hmem : (r :: rest)[(((r :: rest).length : Int) - 1 - y).toNat] ∈ r :: rest :=
          List.getElem_mem hylt
        have hr := hlen _ hmem
        simp only [gridWidth, List.headD_cons] at hr
        have hdata : ((r :: rest)[(((r :: rest).length : Int) - 1 - y).toNat]).data.length
            = ((r :: rest)[(((r :: rest).length : Int) - 1 - y).toNat]).length := rfl
        omega
      simp only [List.getElem?_eq_getElem hylt, List.getD_eq_getElem _ _ hylt]
      simp only [List.getElem?_eq_getElem hxlt, List.getD_eq_getElem _ _ hxlt]

/-! ### Helper lemmas -/

/-- Every guarded append preserves pairwise non-equality of the stored
states: a pair is only appended when no structurally equal state is
already present. -/
theorem addIfNew_pairwise (acc : List (Int × PacManState)) (p : Int × PacManState)
    (h : acc.Pairwise (fun a b => PacManState.eq a.2 b.2 = false)) :
    (addIfNew acc p).Pairwise (fun a b => PacManState.eq a.2 b.2 = false) := by
  unfold addIfNew
  split
  · exact h
  · rename_i hany
    rw [Bool.not_eq_true, List.any_eq_false] at hany
    rw [List.pairwise_append]
    refine ⟨h, List.pairwise_singleton _ _, ?_⟩
    intro a ha b hb
    simp only [List.mem_singleton] at hb
    subst hb
    have := hany a ha
    simpa [Bool.not_eq_true] using this

/-- Appending an optional dead-end result preserves pairwise
non-equality. -/
theorem addDead_pairwise (acc : List (Int × PacManState))
    (d : Option (Int × PacManState))
    (h : acc.Pairwise (fun a b => PacManState.eq a.2 b.2 = false)) :
    (addDead acc d).Pairwise (fun a b => PacManState.eq a.2 b.2 = false) := by
  unfold addDead
  cases d with
  | none => exact h
  | some p => exact addIfNew_pairwise _ _ h

/-- Processing one grid cell preserves pairwise non-equality. -/
theorem processCell_pairwise (self : PacManState) (x y : Int)
    (acc : List (Int × PacManState))
    (h : acc.Pairwise (fun a b => PacManState.eq a.2 b.2 = false)) :
    (self.processCell x y acc).Pairwise (fun a b => PacManState.eq a.2 b.2 = false) := by
  unfold PacManState.processCell
  dsimp only
  repeat' first
    | exact h
    | apply addDead_pairwise
    | apply addIfNew_pairwise
    | split

/-- A fold preserves any invariant preserved by each step. -/
theorem foldl_preserves {α β : Type} (Q : β → Prop) (f : β → α → β)
    (hf : ∀ b a, Q b → Q (f b a)) :
    ∀ (l : List α) (init : β), Q init → Q (l.foldl f init) := by
  intro l
  induction l with
  | nil => intro init h; exact h
  | cons a t ih =>
    intro init h
    exact ih _ (hf init a h)

/-- The successor computation reads the originating state only through
its grid field: states over the same grid produce identical results. -/
theorem successors_depend_only_on_grid (g : PacManGrid) (x1 y1 x2 y2 : Int)
    (d1 d2 : String) :
    PacManState.successors ⟨x1, y1, d1, g⟩ = PacManState.successors ⟨x2, y2, d2, g⟩ :=
  rfl

/-! ### Claim theorems -/

/-- C1: on the open 1-by-3 grid, the state at the west end facing North
receives a successor at the open in-bounds cell `(2, 0)`, Manhattan
distance 2 from the state's own `(0, 0)` — a straight eastward step
evaluated at grid cell `(1, 0)`.  Successors are therefore not computed
relative to the state's own position, refuting the claim. -/
theorem c1_successor_not_adjacent_to_state :
    mkGrid ["..."] = some grid1x3 ∧
      ∃ p ∈ PacManState.successors ⟨0, 0, "N", grid1x3⟩,
        p.2.x = 2 ∧ p.2.y = 0 ∧ grid1x3.occupied p.2.x p.2.y = false ∧
          (p.2.x - 0).natAbs + (p.2.y - 0).natAbs ≠ 1 := by
  decide

/-- C2: the eastward step helper produces a state facing `"W"` and the
westward one a state facing `"E"`; the successor reached by stepping East
from `(0, 0)` into the open in-bounds cell `(1, 0)` faces `"W"`, not
East as the claim requires. -/
theorem c2_east_step_faces_west :
    grid1x3.occupied 1 0 = false ∧
      (PacManState.moveEast ⟨0, 0, "N", grid1x3⟩ 0 0).2 = ⟨1, 0, "W", grid1x3⟩ ∧
      (PacManState.moveWest ⟨0, 0, "N", grid1x3⟩ 1 0).2 = ⟨0, 0, "E", grid1x3⟩ ∧
      (1, (⟨1, 0, "W", grid1x3⟩ : PacManState)) ∈
        PacManState.successors ⟨0, 0, "N", grid1x3⟩ := by
  decide

/-- C3: on the 1-by-1 grid of the spec scenario the state `(0, 0, "N")`
has no successors at all — the dead-end reversal `(0, 0, "S")` promised
by the claim is never produced, because the dead-end helper is only
consulted after a successful straight move. -/
theorem c3_dead_end_scenario_yields_nothing :
    mkGrid ["."] = some grid1x1 ∧
      PacManState.successors ⟨0, 0, "N", grid1x1⟩ = [] := by
  decide

/-- C6: construction performs no validation: a ragged row list is
accepted (no error of any kind), after which an in-bounds occupancy query
hits a missing character and fails; the empty list is the only input on
which construction itself fails. -/
theorem c6_construction_accepts_ragged_rows :
    mkGrid ["ab", "c"] = some ⟨["ab", "c"], 1, 1⟩ ∧
      PacManGrid.occupiedE ⟨["ab", "c"], 1, 1⟩ 1 0 = none ∧
      mkGrid [] = none := by
  decide

/-- C7: the successor sequence of `(0, 0, "N")` on the open 1-by-3 grid
is the whole-grid scan order: five elements, with the dead-end reversal
`(0, 0, "W")` interleaved before the straight-move successor
`(1, 0, "E")` — not the claimed North, South, East, West order from the
state's own position followed by a final reversal. -/
theorem c7_successor_order_is_whole_grid_scan :
    PacManState.successors ⟨0, 0, "N", grid1x3⟩ =
      [(1, ⟨1, 0, "W", grid1x3⟩), (2, ⟨2, 0, "W", grid1x3⟩),
        (0, ⟨0, 0, "E", grid1x3⟩), (0, ⟨0, 0, "W", grid1x3⟩),
        (1, ⟨1, 0, "E", grid1x3⟩)] := by
  decide

/-- C8: the successor sequence never contains two elements whose states
are structurally equal: every append is guarded by an equality check
against all states already present. -/
theorem c8_no_structurally_equal_duplicates (s : PacManState) :
    (PacManState.successors s).Pairwise (fun a b => PacManState.eq a.2 b.2 = false) := by
  unfold PacManState.successors
  dsimp only
  refine foldl_preserves _ _ ?_ _ _ List.Pairwise.nil
  intro b a hb
  refine foldl_preserves _ _ ?_ _ _ hb
  intro b2 a2 hb2
  exact processCell_pairwise _ _ _ _ hb2

/-- C9: equal states over the same grid produce element-for-element equal
successor sequences; in particular repeated calls on one state agree. -/
theorem c9_equal_states_equal_successors (s1 s2 : PacManState)
    (heq : PacManState.eq s1 s2 = true) (hgrid : s1.grid = s2.grid) :
    PacManState.successors s1 = PacManState.successors s2 := by
  cases s1 with
  | mk x1 y1 d1 g1 =>
    cases s2 with
    | mk x2 y2 d2 g2 =>
      simp only at hgrid
      subst hgrid
      exact successors_depend_only_on_grid g1 x1 y1 x2 y2 d1 d2

/-- C9 witness: two successive calls on the concrete state
`(0, 0, "N")` over the 1-by-3 grid return the same sequence. -/
theorem c9_equal_states_equal_successors_witness :
    PacManState.eq ⟨0, 0, "N", grid1x3⟩ ⟨0, 0, "N", grid1x3⟩ = true ∧
      (⟨0, 0, "N", grid1x3⟩ : PacManState).grid = (⟨0, 0, "N", grid1x3⟩ : PacManState).grid ∧
      PacManState.successors ⟨0, 0, "N", grid1x3⟩ =
        PacManState.successors ⟨0, 0, "N", grid1x3⟩ :=
  ⟨by decide, rfl, c9_equal_states_equal_successors _ _ (by decide) rfl⟩

/-- C10: the successor computation never reads the originating state's
position or direction — any two states over one fixed grid, whatever
their coordinates and facing directions, produce identical sequences. -/
theorem c10_successors_ignore_position_and_direction (g : PacManGrid)
    (x1 y1 x2 y2 : Int) (d1 d2 : String) :
    PacManState.successors ⟨x1, y1, d1, g⟩ = PacManState.successors ⟨x2, y2, d2, g⟩ :=
  successors_depend_only_on_grid g x1 y1 x2 y2 d1 d2

/-- C4: on a grid built from a rectangular non-empty row description, the
occupancy test returns `true` exactly for coordinates outside
`[0, width) x [0, height)` or whose character at input row
`height - 1 - y`, column `x`, is the wall marker; in particular every
out-of-bounds query returns `true`. -/
theorem c4_occupied_matches_spec (rows : List String) (g : PacManGrid)
    (hg : mkGrid rows = some g) (hrect : Rectangular rows) (x y : Int) :
    g.occupied x y = true ↔
      (x < 0 ∨ y < 0 ∨ (gridWidth rows : Int) ≤ x ∨ (gridHeight rows : Int) ≤ y ∨
        specWallAt rows x y) := by
  obtain ⟨hne, hlen⟩ := hrect
  cases rows with
  | nil => cases hne rfl
  | cons r rest =>
    simp only [mkGrid, Option.some.injEq] at hg
    subst hg
    unfold PacManGrid.occupied
    dsimp only
    simp only [gridWidth, gridHeight, List.headD_cons]
    split
    · rename_i h
      simp only [Bool.or_eq_true, decide_eq_true_eq] at h
      constructor
      · intro _
        rcases h with ((h | h) | h) | h
        · exact Or.inl h
        · exact Or.inr (Or.inl h)
        · refine Or.inr (Or.inr (Or.inl ?_))
          omega
        · refine Or.inr (Or.inr (Or.inr (Or.inl ?_)))
          omega
      · intro _
        rfl
    · rename_i h
      have h2 := h
      simp only [Bool.or_eq_true, decide_eq_true_eq, not_or, not_lt] at h2
      obtain ⟨⟨⟨hx0, hy0⟩, hxm⟩, hym⟩ := h2
      clear h
      have hylt : (((r :: rest).length : Int) - 1 - y).toNat < (r :: rest).length := by
        omega
      have hidx : (((r :: rest).length : Int) - 1 - y).toNat
          = (r :: rest).length - 1 - y.toNat := by
        omega
      have hylt2 : (r :: rest).length - 1 - y.toNat < (r :: rest).length := by
        omega
      have hxlt : x.toNat <
          ((r :: rest)[(r :: rest).length - 1 - y.toNat]).data.length := by
        have hmem : (r :: rest)[(r :: rest).length - 1 - y.toNat] ∈ r :: rest :=
          List.getElem_mem hylt2
        have hr := hlen _ hmem
        simp only [gridWidth, List.headD_cons] at hr
        have hdata : ((r :: rest)[(r :: rest).length - 1 - y.toNat]).data.length
            = ((r :: rest)[(r :: rest).length - 1 - y.toNat]).length := rfl
        omega
      unfold specWallAt gridHeight
      rw [hidx, List.getD_eq_getElem _ _ hylt2, List.getD_eq_getElem _ _ hxlt,
        List.getD_eq_getElem _ _ hxlt, beq_iff_eq]
      constructor
      · intro hc
        exact Or.inr (Or.inr (Or.inr (Or.inr hc)))
      · intro hrhs
        rcases hrhs with h | h | h | h | h
        · omega
        · omega
        · omega
        · omega
        · exact h

/-- C4 witness: the characterization evaluated on the concrete 1-by-2
grid with one wall, at the wall cell. -/
theorem c4_occupied_matches_spec_witness :
    mkGrid [".X"] = some ⟨[".X"], 1, 0⟩ ∧ Rectangular [".X"] ∧
      (PacManGrid.occupied ⟨[".X"], 1, 0⟩ 1 0 = true ↔
        ((1 : Int) < 0 ∨ (0 : Int) < 0 ∨ (gridWidth [".X"] : Int) ≤ 1 ∨
          (gridHeight [".X"] : Int) ≤ 0 ∨ specWallAt [".X"] 1 0)) :=
  ⟨rfl, by constructor <;> decide,
    c4_occupied_matches_spec [".X"] ⟨[".X"], 1, 0⟩ rfl
      (by constructor <;> decide) 1 0⟩

/-- C5: over a shared grid the hash is a function of position alone —
direction never enters it — while equality holds exactly when position
and direction all agree. -/
theorem c5_hash_position_only_eq_componentwise (s1 s2 : PacManState)
    (hgrid : s1.grid = s2.grid) :
    (s1.x = s2.x → s1.y = s2.y → s1.hash = s2.hash) ∧
      (PacManState.eq s1 s2 = true ↔ s1.x = s2.x ∧ s1.y = s2.y ∧ s1.d = s2.d) := by
  constructor
  · intro hx hy
    unfold PacManState.hash
    rw [hx, hy, hgrid]
  · unfold PacManState.eq
    simp only [Bool.and_eq_true, beq_iff_eq, and_assoc]

/-- C5 witness: two states at the same cell of the 1-by-3 grid with
different facing directions hash identically yet are not equal. -/
theorem c5_hash_position_only_witness :
    (⟨1, 0, "N", grid1x3⟩ : PacManState).grid = (⟨1, 0, "S", grid1x3⟩ : PacManState).grid ∧
      (((⟨1, 0, "N", grid1x3⟩ : PacManState).x = (⟨1, 0, "S", grid1x3⟩ : PacManState).x →
          (⟨1, 0, "N", grid1x3⟩ : PacManState).y = (⟨1, 0, "S", grid1x3⟩ : PacManState).y →
          (⟨1, 0, "N", grid1x3⟩ : PacManState).hash = (⟨1, 0, "S", grid1x3⟩ : PacManState).hash) ∧
        (PacManState.eq ⟨1, 0, "N", grid1x3⟩ ⟨1, 0, "S", grid1x3⟩ = true ↔
          (⟨1, 0, "N", grid1x3⟩ : PacManState).x = (⟨1, 0, "S", grid1x3⟩ : PacManState).x ∧
            (⟨1, 0, "N", grid1x3⟩ : PacManState).y = (⟨1, 0, "S", grid1x3⟩ : PacManState).y ∧
            (⟨1, 0, "N", grid1x3⟩ : PacManState).d = (⟨1, 0, "S", grid1x3⟩ : PacManState).d)) :=
  ⟨rfl, c5_hash_position_only_eq_componentwise _ _ rfl⟩

end PacMan
